import Mathlib

/-!
Shallow embedding of the vulcan fireworks engine (vulcan source file:
constants, kinematics helpers, `Body`/`Shell`/`Star`, and the animation
loop's scheduling and per-entity scan), together with theorems settling
the specification claims.

Modelling conventions:
* JavaScript numbers are modelled by `Vulcan.JSVal`: an exact rational
  plus the IEEE special values `NaN`, `+Infinity`, `-Infinity`, and the
  non-numeric primitives `undefined`, `null` and booleans that the source
  stores in numeric slots (`lastUpdate`, `spawned`, the framerate
  globals).  Arithmetic coerces non-numbers exactly as JavaScript's
  binary operators do (`undefined → NaN`, `null → 0`, `false/true → 0/1`).
* `Math.sqrt` is modelled by `Vulcan.ratSqrt`, a rational square root that
  is exact on perfect squares (every concrete evaluation performed below
  is on a perfect square or on `0`); theorems quantified over arbitrary
  states never depend on the value `ratSqrt` returns, only on its shape.
* `Math.random()` results are passed as explicit parameters (written `r…`),
  each in `[0,1)` where it matters; `Math.cos/sin` of the star direction
  draw is opaque to the rational model, so a star draw supplies the
  resulting velocity components directly (`StarDraw`).
* The wall clock (`performance.now() / 1000`) readings are explicit `ℚ`
  parameters.  Global mutable state (the `shells`/`stars` arrays and the
  spawn-scheduling globals) is threaded explicitly.
-/

attribute [local semireducible] Rat.add Rat.mul Rat.sub Rat.inv Rat.ofScientific

set_option maxRecDepth 8000

set_option maxHeartbeats 2000000

namespace Vulcan

/-- JavaScript primitive values that can sit in the numeric slots used by
the source: finite numbers (as exact rationals), `NaN`, `±Infinity`,
`undefined`, `null`, and booleans. -/
inductive JSVal where
  | num : ℚ → JSVal
  | nan : JSVal
  | inf : JSVal
  | ninf : JSVal
  | undef : JSVal
  | null : JSVal
  | bool : Bool → JSVal
deriving DecidableEq, Repr

namespace JSVal

/-- JavaScript `ToNumber` coercion restricted to the values above: the
result is always in the numeric fragment (`num`/`nan`/`inf`/`ninf`). -/
def toNumber : JSVal → JSVal
  | num q => num q
  | nan => nan
  | inf => inf
  | ninf => ninf
  | undef => nan
  | null => num 0
  | bool b => num (if b then 1 else 0)

/-- JavaScript truthiness of a value (`ToBoolean`). -/
def truthy : JSVal → Bool
  | num q => decide (q ≠ 0)
  | nan => false
  | inf => true
  | ninf => true
  | undef => false
  | null => false
  | bool b => b

/-- Addition on the numeric fragment (IEEE rules with exact rationals). -/
def numAdd : JSVal → JSVal → JSVal
  | nan, _ => nan
  | _, nan => nan
  | inf, ninf => nan
  | ninf, inf => nan
  | inf, _ => inf
  | _, inf => inf
  | ninf, _ => ninf
  | _, ninf => ninf
  | num x, num y => num (x + y)
  | _, _ => nan

/-- Negation on the numeric fragment. -/
def numNeg : JSVal → JSVal
  | num x => num (-x)
  | nan => nan
  | inf => ninf
  | ninf => inf
  | _ => nan

/-- Multiplication on the numeric fragment (IEEE rules; `0 * ±∞ = NaN`). -/
def numMul : JSVal → JSVal → JSVal
  | nan, _ => nan
  | _, nan => nan
  | inf, inf => inf
  | inf, ninf => ninf
  | ninf, inf => ninf
  | ninf, ninf => inf
  | inf, num y => if y = 0 then nan else if 0 < y then inf else ninf
  | num x, inf => if x = 0 then nan else if 0 < x then inf else ninf
  | ninf, num y => if y = 0 then nan else if 0 < y then ninf else inf
  | num x, ninf => if x = 0 then nan else if 0 < x then ninf else inf
  | num x, num y => num (x * y)
  | _, _ => nan

/-- Division on the numeric fragment.  `0/0 = NaN`, `x/0 = ±∞` for
`x ≠ 0`, `x/±∞ = 0` (the sign of zero is not tracked). -/
def numDiv : JSVal → JSVal → JSVal
  | nan, _ => nan
  | _, nan => nan
  | inf, inf => nan
  | inf, ninf => nan
  | ninf, inf => nan
  | ninf, ninf => nan
  | inf, num y => if y < 0 then ninf else inf
  | ninf, num y => if y < 0 then inf else ninf
  | num _, inf => num 0
  | num _, ninf => num 0
  | num x, num y =>
      if y = 0 then (if x = 0 then nan else if 0 < x then inf else ninf)
      else num (x / y)
  | _, _ => nan

end JSVal

open JSVal

/-- JavaScript binary `+` on our values. -/
def jsAdd (a b : JSVal) : JSVal := numAdd a.toNumber b.toNumber

/-- JavaScript binary `-` on our values. -/
def jsSub (a b : JSVal) : JSVal := numAdd a.toNumber (numNeg b.toNumber)

/-- JavaScript binary `*` on our values. -/
def jsMul (a b : JSVal) : JSVal := numMul a.toNumber b.toNumber

/-- JavaScript binary `/` on our values. -/
def jsDiv (a b : JSVal) : JSVal := numDiv a.toNumber b.toNumber

/-- JavaScript unary `-` on our values. -/
def jsNeg (a : JSVal) : JSVal := numNeg a.toNumber

/-- JavaScript `>` comparison: any comparison involving `NaN` is false. -/
def jsGt (a b : JSVal) : Bool :=
  match a.toNumber, b.toNumber with
  | JSVal.num x, JSVal.num y => decide (y < x)
  | JSVal.num _, JSVal.inf => false
  | JSVal.num _, JSVal.ninf => true
  | JSVal.inf, JSVal.num _ => true
  | JSVal.inf, JSVal.inf => false
  | JSVal.inf, JSVal.ninf => true
  | JSVal.ninf, JSVal.num _ => false
  | JSVal.ninf, JSVal.inf => false
  | JSVal.ninf, JSVal.ninf => false
  | _, _ => false

/-- JavaScript short-circuiting `||`: the left value when truthy,
otherwise the right value. -/
def jsOr (a b : JSVal) : JSVal := if a.truthy then a else b

/-- `Math.pow(x, 2)` as used by the source (squaring). -/
def jsPow2 (x : JSVal) : JSVal := jsMul x x

/-- Largest `j ≤ k` with `j * j ≤ n` (and `0` if there is none), by
downward search; structural recursion so that the kernel can evaluate it. -/
def natSqrtGo (n : ℕ) : ℕ → ℕ
  | 0 => 0
  | k + 1 => if (k + 1) * (k + 1) ≤ n then k + 1 else natSqrtGo n k

/-- Integer square root, `⌊√n⌋`. -/
def natSqrt (n : ℕ) : ℕ := natSqrtGo n n

/-- Rational square root: exact on perfect squares (numerator and
denominator both perfect squares); every concrete evaluation in this file
is on such an input.  Stands in for `Math.sqrt` on nonnegative numbers. -/
def ratSqrt (q : ℚ) : ℚ := mkRat (natSqrt q.num.toNat) (natSqrt q.den)

/-- `Math.sqrt` on our values (`sqrt` of a negative number is `NaN`). -/
def jsSqrt (a : JSVal) : JSVal :=
  match a.toNumber with
  | JSVal.num q => if q < 0 then JSVal.nan else JSVal.num (ratSqrt q)
  | JSVal.nan => JSVal.nan
  | JSVal.inf => JSVal.inf
  | JSVal.ninf => JSVal.nan
  | _ => JSVal.nan

/-- A 2-vector of JavaScript numbers (position / velocity / acceleration). -/
abbrev Vec2 := JSVal × JSVal

/- Constants from the source. -/

/-- The number of pixels that equal 1 meter. -/
def SCALE : ℚ := 10

/-- The framerate at which shells should be blocked from spawning. -/
def FRAMERATE_TOLERANCE : ℚ := 15

/-- The acceleration due to gravity on the y axis. -/
def ACCELERATION_DUE_TO_GRAVITY : ℚ := -9.80665

/-- The density of air. -/
def AIR_DENSITY : ℚ := 1.29

/-- The cross-sectional area of a star. -/
def STAR_CROSS_SECTIONAL_AREA : ℚ := 0.01

/-- The mass of a star. -/
def STAR_MASS : ℚ := 0.01

/-- The drag coefficient of a star. -/
def STAR_DRAG_COEFFICIENT : ℚ := 0.4

/-- The number of stars in a shell. -/
def STAR_COUNT : ℕ := 100

/-- The mass of a shell: `0.6 + STAR_MASS * STAR_COUNT`. -/
def SHELL_MASS : ℚ := 0.6 + STAR_MASS * (STAR_COUNT : ℚ)

/-- The thrust a shell generates (newtons). -/
def SHELL_THRUST : ℚ := 100

/-- The drag coefficient of a shell. -/
def SHELL_DRAG_COEFFICIENT : ℚ := 0.47

/-- The cross-sectional area of a shell. -/
def SHELL_CROSS_SECTIONAL_AREA : ℚ := 0.002

/-- The minimum random-spawn period (seconds). -/
def MINIMUM_RANDOM_SPAWN_PERIOD : ℚ := 2

/-- The maximum random-spawn period (seconds). -/
def MAXIMUM_RANDOM_SPAWN_PERIOD : ℚ := 5

/- Helper functions from the source. -/

/-- `getRandomArbitrary(min, max)` = `Math.random() * (max - min) + min`,
with the `Math.random()` result `r` passed explicitly. -/
def getRandomArbitrary (min max r : ℚ) : ℚ := r * (max - min) + min

/-- `getRandomInteger(min, max)` =
`Math.floor(Math.random() * (max - min + 1)) + min` after `min = ⌈min⌉`,
`max = ⌊max⌋`; the `Math.random()` result `r` is passed explicitly. -/
def getRandomInteger (min max r : ℚ) : ℤ :=
  ⌊r * ((⌊max⌋ : ℚ) - (⌈min⌉ : ℚ) + 1)⌋ + ⌈min⌉

/-- `mapToCanvas`: scale by `SCALE`, then invert the vertical component
about the canvas's vertical center (`h` is `canvas.offsetHeight`). -/
def mapToCanvas (h : ℚ) (position : Vec2) : Vec2 :=
  let scale := fun (component : JSVal) => jsMul component (JSVal.num SCALE)
  let invert := fun (component center : JSVal) => jsAdd center (jsSub center component)
  let verticalCenter := JSVal.num (h / 2)
  (scale position.1, invert (scale position.2) verticalCenter)

/-- `mapFromCanvas`: invert the vertical component about the canvas's
vertical center, then scale by `1 / SCALE`. -/
def mapFromCanvas (h : ℚ) (position : Vec2) : Vec2 :=
  let scale := fun (component : JSVal) => jsDiv component (JSVal.num SCALE)
  let invert := fun (component center : JSVal) => jsAdd center (jsSub center component)
  let verticalCenter := JSVal.num (h / 2)
  (scale position.1, scale (invert position.2 verticalCenter))

/-- `calculateDistance`: `d = v·t + 0.5·a·(t·t)`. -/
def calculateDistance (initialSpeed time acceleration : JSVal) : JSVal :=
  jsAdd (jsMul initialSpeed time)
    (jsMul (jsMul (JSVal.num 0.5) acceleration) (jsMul time time))

/-- `calculateDisplacement`: Euclidean distance between two positions. -/
def calculateDisplacement (initalPosition finalPosition : Vec2) : JSVal :=
  jsSqrt (jsAdd (jsPow2 (jsSub finalPosition.1 initalPosition.1))
                (jsPow2 (jsSub finalPosition.2 initalPosition.2)))

/-- `calculateSpeed`: `distance / time`. -/
def calculateSpeed (distance time : JSVal) : JSVal := jsDiv distance time

/-- `calculateAccelerationDueToDrag`: magnitude `0.5·ρ·Cd·A·|v|²`
opposing the velocity direction, as `F = ma` solved for `a`.  The
direction normalisation divides each velocity component by `|v|`. -/
def calculateAccelerationDueToDrag
    (fluidDensity dragCoefficient crossSectionalArea : JSVal)
    (velocity : Vec2) (mass : JSVal) : Vec2 :=
  let speed := jsSqrt (jsAdd (jsPow2 velocity.1) (jsPow2 velocity.2))
  let drag := jsNeg (jsMul (jsMul (jsMul (jsMul (JSVal.num 0.5) fluidDensity)
    dragCoefficient) crossSectionalArea) (jsMul speed speed))
  (jsMul (jsDiv drag mass) (jsDiv velocity.1 speed),
   jsMul (jsDiv drag mass) (jsDiv velocity.2 speed))

/- Body. -/

/-- A physical body, as laid down by the `Body` constructor function.
`spawned` starts as the boolean `false` (later a boolean for shells, a
timestamp for stars); `lastUpdate` starts as `null`. -/
structure Body where
  currentPosition : Vec2
  currentVelocity : Vec2
  currentAcceleration : Vec2
  mass : JSVal
  dragCoefficient : JSVal
  crossSectionalArea : JSVal
  spawned : JSVal
  lastUpdate : JSVal
deriving DecidableEq, Repr

/-- The `Body` constructor: the fields not passed in start as
`spawned = false`, `lastUpdate = null`. -/
def mkBody (initialPosition initalVelocity initalAcceleration : Vec2)
    (mass dragCoefficient crossSectionalArea : JSVal) : Body :=
  { currentPosition := initialPosition
    currentVelocity := initalVelocity
    currentAcceleration := initalAcceleration
    mass := mass
    dragCoefficient := dragCoefficient
    crossSectionalArea := crossSectionalArea
    spawned := JSVal.bool false
    lastUpdate := JSVal.null }

/-- `Shell.prototype.getAccelerationDueToThrust`: unit vector along the
body's current velocity scaled by `SHELL_THRUST / SHELL_MASS`.  In the
source this is a `Shell` method reading `this.currentVelocity`; here it
takes the body record of the shell. -/
def getAccelerationDueToThrust (b : Body) : Vec2 :=
  let velocity := b.currentVelocity
  let speed := jsSqrt (jsAdd (jsPow2 velocity.1) (jsPow2 velocity.2))
  let proportions := (jsDiv velocity.1 speed, jsDiv velocity.2 speed)
  (jsDiv (jsMul proportions.1 (JSVal.num SHELL_THRUST)) (JSVal.num SHELL_MASS),
   jsDiv (jsMul proportions.2 (JSVal.num SHELL_THRUST)) (JSVal.num SHELL_MASS))

/-- `Body.prototype.update`.  The source reads the clock itself
(`getArbitraryTime()`); here the reading is the parameter `timeNow`.
`hasThrust` models the duck-typed `if (this.getAccelerationDueToThrust)`
test: `true` for shells (which have the method), `false` for stars and
plain bodies.  If `!this.lastUpdate` (falsy: `null`, `0` or `NaN`), the
call only records the clock baseline; otherwise it integrates one step. -/
def Body.update (hasThrust : Bool) (timeNow : ℚ) (b : Body) : Body :=
  if b.lastUpdate.truthy = false then
    { b with lastUpdate := JSVal.num timeNow }
  else
    let lastPosition := b.currentPosition
    let lastVelocity := b.currentVelocity
    let lastAcceleration := b.currentAcceleration
    let timeDelta := jsSub (JSVal.num timeNow) b.lastUpdate
    let displacement :=
      (calculateDistance lastVelocity.1 timeDelta lastAcceleration.1,
       calculateDistance lastVelocity.2 timeDelta lastAcceleration.2)
    let accelerationDueToDrag :=
      calculateAccelerationDueToDrag (JSVal.num AIR_DENSITY)
        b.dragCoefficient b.crossSectionalArea lastVelocity b.mass
    let accelerationDueToThrust :=
      if hasThrust then getAccelerationDueToThrust b
      else (JSVal.num 0, JSVal.num 0)
    { b with
      currentPosition :=
        (jsAdd lastPosition.1 displacement.1,
         jsAdd lastPosition.2 displacement.2)
      currentVelocity :=
        (calculateSpeed displacement.1 timeDelta,
         calculateSpeed displacement.2 timeDelta)
      currentAcceleration :=
        (jsAdd (jsOr accelerationDueToThrust.1 (JSVal.num 0))
               (jsOr accelerationDueToDrag.1 (JSVal.num 0)),
         jsAdd (jsAdd (jsOr accelerationDueToThrust.2 (JSVal.num 0))
                      (jsOr accelerationDueToDrag.2 (JSVal.num 0)))
               (JSVal.num ACCELERATION_DUE_TO_GRAVITY))
      lastUpdate := JSVal.num timeNow }

/- Shell. -/

/-- `Shell.getLauncherPosition()`: the horizontal center and 20 pixels
below the bottom of the canvas, mapped into simulation coordinates.
`w`/`h` are `canvas.offsetWidth`/`canvas.offsetHeight`. -/
def getLauncherPosition (w h : ℚ) : Vec2 :=
  mapFromCanvas h (JSVal.num (w / 2), JSVal.num (h + 20))

/-- `Shell.calculateInitialAcceleration`: unit vector from the initial
position to the target, scaled by `thrust / mass`. -/
def calculateInitialAcceleration (initalPosition target : Vec2)
    (mass thrust : JSVal) : Vec2 :=
  let deltaX := jsSub target.1 initalPosition.1
  let deltaY := jsSub target.2 initalPosition.2
  let displacment := jsSqrt (jsAdd (jsPow2 deltaX) (jsPow2 deltaY))
  let xProportion := jsDiv deltaX displacment
  let yProportion := jsDiv deltaY displacment
  let totalAcceleration := jsDiv thrust mass
  (jsMul totalAcceleration xProportion, jsMul totalAcceleration yProportion)

/-- A shell: a body plus a target, a detonation flag and a color.  The
color string drawn by `Shell.getRandomColor` is modelled as an opaque
tag. -/
structure Shell where
  body : Body
  target : Vec2
  detonated : Bool
  color : ℕ
deriving DecidableEq, Repr

/-- The `Shell` constructor (with the target given explicitly and the
random color tag passed in): the underlying body starts at the launcher
position with zero velocity and the initial thrust-derived acceleration,
with the shell's physical constants. -/
def mkShell (target : Vec2) (color : ℕ) (w h : ℚ) : Shell :=
  let laucherPosition := getLauncherPosition w h
  { body :=
      mkBody laucherPosition (JSVal.num 0, JSVal.num 0)
        (calculateInitialAcceleration laucherPosition target
          (JSVal.num SHELL_MASS) (JSVal.num SHELL_THRUST))
        (JSVal.num SHELL_MASS) (JSVal.num SHELL_DRAG_COEFFICIENT)
        (JSVal.num SHELL_CROSS_SECTIONAL_AREA)
    target := target
    detonated := false
    color := color }

/- Star. -/

/-- One star's random draws.  The source draws an integer magnitude in
`[3, 100]`, a direction in `[0, 2π)`, and sets the velocity to
`(cos(dir)·mag, sin(dir)·mag)`; trigonometry is opaque to the rational
model, so the draw supplies the resulting velocity components directly.
`rDur` is the `Math.random()` result of the duration draw. -/
structure StarDraw where
  velX : ℚ
  velY : ℚ
  rDur : ℚ
deriving DecidableEq, Repr

/-- A star: a body plus a burn duration, a decay flag and the parent
shell's color.  (The source also keeps a reference to the parent shell;
no modelled code path reads it, so it is not carried here.) -/
structure Star where
  body : Body
  duration : JSVal
  decayed : Bool
  color : ℕ
deriving DecidableEq, Repr

/-- The `Star` constructor: position copied from the parent shell's
current position, the drawn velocity, zero initial acceleration, the
star physical constants, duration drawn from `[2.5, 3)`, and the parent
shell's color. -/
def mkStar (shell : Shell) (d : StarDraw) : Star :=
  { body :=
      mkBody shell.body.currentPosition (JSVal.num d.velX, JSVal.num d.velY)
        (JSVal.num 0, JSVal.num 0) (JSVal.num STAR_MASS)
        (JSVal.num STAR_DRAG_COEFFICIENT) (JSVal.num STAR_CROSS_SECTIONAL_AREA)
    duration := JSVal.num (getRandomArbitrary 2.5 3 d.rDur)
    decayed := false
    color := shell.color }

/-- `Star.prototype.spawn`: records the clock reading in `spawned` and
pushes the star onto the global `stars` array (returned list). -/
def starSpawn (timeClock : ℚ) (star : Star) (stars : List Star) :
    Star × List Star :=
  let star' := { star with body := { star.body with spawned := JSVal.num timeClock } }
  (star', stars ++ [star'])

/-- `Shell.prototype.detonate`: sets `detonated = true` and spawns
`STAR_COUNT` stars (the `while (starCount < STAR_COUNT)` loop, modelled
as a counted iteration; `sd i` is the `i`-th star's random draw and
`timeClock` the clock reading of each star's `spawn()`).  There is no
guard against the shell already being detonated. -/
def Shell.detonate (sd : ℕ → StarDraw) (timeClock : ℚ) (s : Shell)
    (stars : List Star) : Shell × List Star :=
  ({ s with detonated := true },
   stars ++ (List.range STAR_COUNT).map
     (fun i => ((starSpawn timeClock (mkStar s (sd i)) []).1)))

/- Random-spawn scheduling. -/

/-- The two spawn-scheduling globals: `mostRecentRandomSpawn` and
`currentRandomSpawnPeriod`.  Both are `undefined` until
`resetRandomSpawn` first runs. -/
structure SpawnState where
  mostRecentRandomSpawn : JSVal
  currentRandomSpawnPeriod : JSVal
deriving DecidableEq, Repr

/-- `resetRandomSpawn()`: records the clock reading and redraws the
period via `getRandomArbitrary(MINIMUM_RANDOM_SPAWN_PERIOD,
MAXIMUM_RANDOM_SPAWN_PERIOD)`; `rPeriod` is the `Math.random()` result. -/
def resetRandomSpawn (timeClock rPeriod : ℚ) : SpawnState :=
  { mostRecentRandomSpawn := JSVal.num timeClock
    currentRandomSpawnPeriod :=
      JSVal.num (getRandomArbitrary MINIMUM_RANDOM_SPAWN_PERIOD
        MAXIMUM_RANDOM_SPAWN_PERIOD rPeriod) }

/-- `Shell.getRandomTarget()`: a random integer pixel position in the
upper half of the canvas, mapped to simulation coordinates (`rX`/`rY`
are the two `Math.random()` results). -/
def getRandomTarget (w h rX rY : ℚ) : Vec2 :=
  mapFromCanvas h
    (JSVal.num (getRandomInteger 0 w rX : ℚ),
     JSVal.num (getRandomInteger 0 (h / 2) rY : ℚ))

/-- `Shell.prototype.spawn`: marks the shell spawned, calls
`resetRandomSpawn()` and pushes the shell onto the global `shells` array.
Returns the spawned shell, the new scheduling state and the new array. -/
def Shell.spawn (timeClock rPeriod : ℚ) (s : Shell) (shells : List Shell) :
    Shell × SpawnState × List Shell :=
  let s' := { s with body := { s.body with spawned := JSVal.bool true } }
  (s', resetRandomSpawn timeClock rPeriod, shells ++ [s'])

/- Animation loop. -/

/-- The framerate-measurement prologue of `animationLoop`: on the first
tick (`mostRecentRepaint` falsy) only the repaint timestamp is recorded
and `framerate` is left untouched; afterwards `framerate = 1 / dt`.
Returns the new `(mostRecentRepaint, framerate)` pair. -/
def framerateStep (timeNow : ℚ) (mostRecentRepaint framerate : JSVal) :
    JSVal × JSVal :=
  if mostRecentRepaint.truthy = false then (JSVal.num timeNow, framerate)
  else
    (JSVal.num timeNow,
     jsDiv (JSVal.num 1) (jsSub (JSVal.num timeNow) mostRecentRepaint))

/-- The idle auto-spawn segment of `animationLoop`: gated on
`framerate > FRAMERATE_TOLERANCE`; fires when `mostRecentRandomSpawn` is
falsy or more than `currentRandomSpawnPeriod` seconds have elapsed.  On
firing, a randomly targeted shell is constructed and spawned (its
`spawn()` runs `resetRandomSpawn` with clock reading `timeClock` and
draw `rPeriod`), then `mostRecentRandomSpawn` is overwritten with
`timeNow`. -/
def idleSpawnStep (framerate : JSVal) (timeNow timeClock rPeriod : ℚ)
    (target : Vec2) (color : ℕ) (w h : ℚ) (st : SpawnState)
    (shells : List Shell) : SpawnState × List Shell :=
  if jsGt framerate (JSVal.num FRAMERATE_TOLERANCE) then
    let change := jsSub (JSVal.num timeNow) st.mostRecentRandomSpawn
    if !st.mostRecentRandomSpawn.truthy || jsGt change st.currentRandomSpawnPeriod then
      let r := Shell.spawn timeClock rPeriod (mkShell target color w h) shells
      ({ r.2.1 with mostRecentRandomSpawn := JSVal.num timeNow }, r.2.2)
    else (st, shells)
  else (st, shells)

/-- The body of the per-shell `for` loop of `animationLoop`, for one
shell: compute displacement from the launcher to the shell and to its
target; `detonate()` exactly when the former strictly exceeds the
latter; a detonated shell is removed (`none`); otherwise `update()` and
`draw()` run when the framerate is above tolerance or the shell was
already spawned (drawing is rendering and is not modelled).  `sd` feeds
the star draws of a detonation. -/
def processShell (w h : ℚ) (framerate : JSVal) (timeNow : ℚ)
    (sd : ℕ → StarDraw) (shell : Shell) (stars : List Star) :
    Option Shell × List Star :=
  let currentDisplacment :=
    calculateDisplacement (getLauncherPosition w h) shell.body.currentPosition
  let targetDisplacement :=
    calculateDisplacement (getLauncherPosition w h) shell.target
  let exceededTarget := jsGt currentDisplacment targetDisplacement
  let r := if exceededTarget then Shell.detonate sd timeNow shell stars
           else (shell, stars)
  if r.1.detonated then (none, r.2)
  else if jsGt framerate (JSVal.num FRAMERATE_TOLERANCE)
      || r.1.body.spawned.truthy then
    (some { r.1 with body := Body.update true timeNow r.1.body }, r.2)
  else (some r.1, r.2)

/-- The per-shell `for (let i = 0; i < shells.length; i++)` scan with
in-place `splice(i, 1)` removal: removing the element at index `i`
shifts the array left while `i` still advances, so the element
immediately after a removed one is not visited on this pass.  `j`
numbers the processed positions; `sds j` is the star-draw stream
available to the `j`-th processed shell. -/
def shellsScanAux (w h : ℚ) (framerate : JSVal) (timeNow : ℚ)
    (sds : ℕ → ℕ → StarDraw) :
    ℕ → List Shell → List Star → List Shell × List Star
  | _, [], stars => ([], stars)
  | j, s :: rest, stars =>
    match processShell w h framerate timeNow (sds j) s stars with
    | (some s', stars') =>
      let r := shellsScanAux w h framerate timeNow sds (j + 1) rest stars'
      (s' :: r.1, r.2)
    | (none, stars') =>
      match rest with
      | [] => ([], stars')
      | b :: rest' =>
        let r := shellsScanAux w h framerate timeNow sds (j + 1) rest' stars'
        (b :: r.1, r.2)

/-- The whole per-shell pass of one `animationLoop` tick. -/
def shellsScan (w h : ℚ) (framerate : JSVal) (timeNow : ℚ)
    (sds : ℕ → ℕ → StarDraw) (shells : List Shell) (stars : List Star) :
    List Shell × List Star :=
  shellsScanAux w h framerate timeNow sds 0 shells stars

/-- The body of the per-star `for` loop of `animationLoop`, for one
star: always `update()` and `draw()`; then the star is removed when its
burn time strictly exceeds its duration (`timeClock` is the
`getArbitraryTime()` reading of the decay check). -/
def processStar (timeNow timeClock : ℚ) (star : Star) : Option Star :=
  let star' := { star with body := Body.update false timeNow star.body }
  let burnTime := jsSub (JSVal.num timeClock) star'.body.spawned
  if jsGt burnTime star'.duration then none else some star'

/-- The per-star `for` scan with in-place `splice(i, 1)` removal: same
skip-on-remove shape as the shell scan (a removed star's immediate
successor shifts into its slot and is passed over this tick). -/
def starsScan (timeNow timeClock : ℚ) : List Star → List Star
  | [] => []
  | s :: rest =>
    match processStar timeNow timeClock s, rest with
    | some s', r => s' :: starsScan timeNow timeClock r
    | none, [] => []
    | none, b :: rest' => b :: starsScan timeNow timeClock rest'

/- Helper lemmas about the JavaScript value model. -/

lemma jsAdd_num (x y : ℚ) : jsAdd (JSVal.num x) (JSVal.num y) = JSVal.num (x + y) := rfl

lemma jsSub_num (x y : ℚ) : jsSub (JSVal.num x) (JSVal.num y) = JSVal.num (x - y) := by
  simp [jsSub, JSVal.toNumber, JSVal.numNeg, JSVal.numAdd, sub_eq_add_neg]

lemma jsMul_num (x y : ℚ) : jsMul (JSVal.num x) (JSVal.num y) = JSVal.num (x * y) := rfl

lemma jsNeg_num (x : ℚ) : jsNeg (JSVal.num x) = JSVal.num (-x) := rfl

lemma jsDiv_num {y : ℚ} (x : ℚ) (hy : y ≠ 0) :
    jsDiv (JSVal.num x) (JSVal.num y) = JSVal.num (x / y) := by
  simp [jsDiv, JSVal.toNumber, JSVal.numDiv, hy]

lemma jsDiv_zero_zero : jsDiv (JSVal.num 0) (JSVal.num 0) = JSVal.nan := by decide

lemma jsMul_nan_right (x : JSVal) : jsMul x JSVal.nan = JSVal.nan := by
  cases x <;> rfl

lemma jsMul_nan_left (x : JSVal) : jsMul JSVal.nan x = JSVal.nan := by
  cases x <;> rfl

lemma jsDiv_nan_left (x : JSVal) : jsDiv JSVal.nan x = JSVal.nan := by
  cases x <;> rfl

lemma jsPow2_num (x : ℚ) : jsPow2 (JSVal.num x) = JSVal.num (x * x) := rfl

lemma jsSqrt_num_nonneg {q : ℚ} (h : 0 ≤ q) :
    jsSqrt (JSVal.num q) = JSVal.num (ratSqrt q) := by
  simp [jsSqrt, JSVal.toNumber, not_lt.mpr h]

lemma jsOr_num_zero (x : ℚ) : jsOr (JSVal.num x) (JSVal.num 0) = JSVal.num x := by
  by_cases h : x = 0
  · subst h; rfl
  · simp [jsOr, JSVal.truthy, h]

lemma jsOr_nan_left (x : JSVal) : jsOr JSVal.nan x = x := rfl

lemma truthy_num_of_ne {t : ℚ} (h : t ≠ 0) : (JSVal.num t).truthy = true := by
  simp [JSVal.truthy, h]

lemma natSqrtGo_pos {n : ℕ} (hn : 1 ≤ n) : ∀ {k : ℕ}, 1 ≤ k → 1 ≤ natSqrtGo n k := by
  intro k
  induction k with
  | zero => intro h; exact absurd h (by simp)
  | succ j ih =>
    intro _
    rw [natSqrtGo]
    by_cases hle : (j + 1) * (j + 1) ≤ n
    · simp [hle]
    · rcases Nat.eq_zero_or_pos j with hj | hj
      · subst hj; simp at hle; omega
      · simp [hle]; exact ih hj

lemma natSqrt_pos {n : ℕ} (hn : 1 ≤ n) : 1 ≤ natSqrt n :=
  natSqrtGo_pos hn hn

lemma ratSqrt_pos {q : ℚ} (hq : 0 < q) : 0 < ratSqrt q := by
  rw [ratSqrt, Rat.mkRat_eq_div]
  apply div_pos
  · have h1 : 1 ≤ natSqrt q.num.toNat := by
      apply natSqrt_pos
      have := Rat.num_pos.mpr hq
      omega
    exact_mod_cast Nat.lt_of_lt_of_le Nat.zero_lt_one h1
  · have h2 : 1 ≤ natSqrt q.den := natSqrt_pos q.pos
    exact_mod_cast Nat.lt_of_lt_of_le Nat.zero_lt_one h2

lemma ratSqrt_zero : ratSqrt 0 = 0 := by decide

/- Shared lemmas about `Body.update`. -/

/-- With a zero previous velocity, both drag components are `NaN`
(`0 / 0` in the direction normalisation), for arbitrary density, drag
coefficient, area and mass arguments. -/
lemma drag_zero_velocity (fluidDensity dragCoefficient crossSectionalArea mass : JSVal) :
    calculateAccelerationDueToDrag fluidDensity dragCoefficient crossSectionalArea
      (JSVal.num 0, JSVal.num 0) mass = (JSVal.nan, JSVal.nan) := by
  have hsqrt : jsSqrt (jsAdd (jsPow2 (JSVal.num 0)) (jsPow2 (JSVal.num 0))) = JSVal.num 0 := by
    decide
  simp only [calculateAccelerationDueToDrag, hsqrt, jsDiv_zero_zero, jsMul_nan_right]

/-- With a zero current velocity, both thrust components are `NaN`
(`0 / 0` in the direction normalisation). -/
lemma thrust_zero_velocity (b : Body) (hv : b.currentVelocity = (JSVal.num 0, JSVal.num 0)) :
    getAccelerationDueToThrust b = (JSVal.nan, JSVal.nan) := by
  have hsqrt : jsSqrt (jsAdd (jsPow2 (JSVal.num 0)) (jsPow2 (JSVal.num 0))) = JSVal.num 0 := by
    decide
  simp only [getAccelerationDueToThrust, hv, hsqrt, jsDiv_zero_zero, jsMul_nan_left,
    jsDiv_nan_left]

/-- A non-baseline `update` of a body whose previous velocity is the zero
vector stores the acceleration `[0, ACCELERATION_DUE_TO_GRAVITY]`: the
`NaN` drag and thrust components are coerced to `0` by the `|| 0` guards
before gravity is added. -/
lemma update_zero_velocity_acc (hasThrust : Bool) (timeNow : ℚ) (b : Body)
    (hv : b.currentVelocity = (JSVal.num 0, JSVal.num 0))
    (hl : b.lastUpdate.truthy = true) :
    (Body.update hasThrust timeNow b).currentAcceleration =
      (JSVal.num 0, JSVal.num ACCELERATION_DUE_TO_GRAVITY) := by
  rw [Body.update, if_neg (by simp [hl])]
  have hdrag := drag_zero_velocity (JSVal.num AIR_DENSITY) b.dragCoefficient
    b.crossSectionalArea b.mass
  cases hasThrust with
  | false =>
    simp only [hv, hdrag, Bool.false_eq_true, if_false, jsOr_nan_left, jsOr_num_zero,
      jsAdd_num, add_zero, zero_add]
  | true =>
    have hthrust := thrust_zero_velocity b hv
    simp only [hv, hdrag, hthrust, if_true, jsOr_nan_left, jsAdd_num, add_zero, zero_add]

/- Concrete sample entities used by witnesses and counterexamples. -/

/-- A star-like body at the origin with zero velocity and acceleration. -/
def sampleStarBody : Body :=
  mkBody (JSVal.num 0, JSVal.num 0) (JSVal.num 0, JSVal.num 0) (JSVal.num 0, JSVal.num 0)
    (JSVal.num STAR_MASS) (JSVal.num STAR_DRAG_COEFFICIENT)
    (JSVal.num STAR_CROSS_SECTIONAL_AREA)

/-- A shell-like body at the origin with zero velocity and acceleration. -/
def sampleShellBody : Body :=
  mkBody (JSVal.num 0, JSVal.num 0) (JSVal.num 0, JSVal.num 0) (JSVal.num 0, JSVal.num 0)
    (JSVal.num SHELL_MASS) (JSVal.num SHELL_DRAG_COEFFICIENT)
    (JSVal.num SHELL_CROSS_SECTIONAL_AREA)

/-- A live sample shell used by the C1 counterexample (position `(1, 2)`,
target `(1, 5)`, color tag `3`). -/
def sampleShell : Shell :=
  { body := sampleShellBody
    target := (JSVal.num 1, JSVal.num 5)
    detonated := false
    color := 3 }

/-- A fixed star-draw stream for concrete evaluations. -/
def sampleDraws : ℕ → StarDraw := fun _ => ⟨1, 1, 0⟩

/- Claim theorems. -/

/-- C3: the first `update()` call after construction (when `lastUpdate`
is still its falsy construction value) only records the clock baseline
(`lastUpdate := now`) and changes neither the position nor the velocity
nor the acceleration, no matter how much time elapsed since
construction. -/
theorem C3_first_update_is_baseline (hasThrust : Bool) (timeNow : ℚ) (b : Body)
    (h : b.lastUpdate.truthy = false) :
    Body.update hasThrust timeNow b = { b with lastUpdate := JSVal.num timeNow } := by
  rw [Body.update, if_pos h]

/-- Witness for C3: a freshly constructed star-like body, first updated
at time `3`. -/
theorem C3_witness :
    Body.update false 3 sampleStarBody = { sampleStarBody with lastUpdate := JSVal.num 3 } :=
  C3_first_update_is_baseline false 3 sampleStarBody (by decide)

/-- C9: mapping a simulation-space point to canvas coordinates and back
is the identity, for every canvas height and every finite point (the
model is exact, so no floating-point tolerance is needed). -/
theorem C9_map_roundtrip (h a b : ℚ) :
    mapFromCanvas h (mapToCanvas h (JSVal.num a, JSVal.num b)) = (JSVal.num a, JSVal.num b) := by
  have hS : SCALE ≠ 0 := by norm_num [SCALE]
  simp only [mapToCanvas, mapFromCanvas, jsMul_num, jsSub_num, jsAdd_num, jsDiv_num _ hS,
    Prod.mk.injEq]
  refine ⟨congrArg JSVal.num ?_, congrArg JSVal.num ?_⟩
  · field_simp [SCALE]
  · field_simp [SCALE]

/-- C2 (amended): at zero velocity the drag computation itself returns
`[NaN, NaN]` (from `0 / 0` in the direction normalisation), not the zero
vector; the `|| 0` guards in `Body.update` then coerce those `NaN`s to
`0`, so a star-like body (no thrust supplier) with velocity `(0,0)`
still ends a non-baseline update with acceleration
`[0, ACCELERATION_DUE_TO_GRAVITY]` — gravity only. -/
theorem C2_drag_at_rest (fluidDensity dragCoefficient crossSectionalArea mass : JSVal) :
    calculateAccelerationDueToDrag fluidDensity dragCoefficient crossSectionalArea
        (JSVal.num 0, JSVal.num 0) mass = (JSVal.nan, JSVal.nan) ∧
    ∀ (timeNow : ℚ) (b : Body),
      b.currentVelocity = (JSVal.num 0, JSVal.num 0) →
      b.lastUpdate.truthy = true →
      (Body.update false timeNow b).currentAcceleration =
        (JSVal.num 0, JSVal.num ACCELERATION_DUE_TO_GRAVITY) :=
  ⟨drag_zero_velocity _ _ _ _,
   fun timeNow b hv hl => update_zero_velocity_acc false timeNow b hv hl⟩

/-- Counterexample for C2 as stated: with the star constants and velocity
`(0, 0)`, `calculateAccelerationDueToDrag` returns `[NaN, NaN]`, not the
zero vector the claim asserts. -/
theorem C2_counterexample :
    calculateAccelerationDueToDrag (JSVal.num AIR_DENSITY) (JSVal.num STAR_DRAG_COEFFICIENT)
        (JSVal.num STAR_CROSS_SECTIONAL_AREA) (JSVal.num 0, JSVal.num 0) (JSVal.num STAR_MASS)
      = (JSVal.nan, JSVal.nan) ∧
    (JSVal.nan, JSVal.nan) ≠ ((JSVal.num 0 : JSVal), (JSVal.num 0 : JSVal)) := by
  exact ⟨by decide, by decide⟩

/-- Witness for C2: the star-like sample body with velocity `(0,0)` and a
recorded `lastUpdate = 5`, updated at time `7`. -/
theorem C2_witness :
    calculateAccelerationDueToDrag (JSVal.num AIR_DENSITY) (JSVal.num STAR_DRAG_COEFFICIENT)
        (JSVal.num STAR_CROSS_SECTIONAL_AREA) (JSVal.num 0, JSVal.num 0) (JSVal.num STAR_MASS)
      = (JSVal.nan, JSVal.nan) ∧
    (Body.update false 7 { sampleStarBody with lastUpdate := JSVal.num 5 }).currentAcceleration
      = (JSVal.num 0, JSVal.num ACCELERATION_DUE_TO_GRAVITY) :=
  ⟨(C2_drag_at_rest _ _ _ _).1,
   (C2_drag_at_rest (JSVal.num AIR_DENSITY) (JSVal.num STAR_DRAG_COEFFICIENT)
      (JSVal.num STAR_CROSS_SECTIONAL_AREA) (JSVal.num STAR_MASS)).2 7
      { sampleStarBody with lastUpdate := JSVal.num 5 } rfl (by decide)⟩

lemma sq_sum_pos {a c : ℚ} (h : ¬(a = 0 ∧ c = 0)) : 0 < a * a + c * c := by
  rcases not_and_or.mp h with ha | hc
  · have := mul_self_pos.mpr ha
    nlinarith [mul_self_nonneg c]
  · have := mul_self_pos.mpr hc
    nlinarith [mul_self_nonneg a]

/-- With a nonzero finite velocity and nonzero finite mass, both drag
components are finite numbers (the `|v|` divisor is nonzero). -/
lemma drag_num_shape (ρ cd ar m a c : ℚ) (hm : m ≠ 0) (hvz : ¬(a = 0 ∧ c = 0)) :
    ∃ u v : ℚ,
      calculateAccelerationDueToDrag (JSVal.num ρ) (JSVal.num cd) (JSVal.num ar)
        (JSVal.num a, JSVal.num c) (JSVal.num m) = (JSVal.num u, JSVal.num v) := by
  have hpos : 0 < a * a + c * c := sq_sum_pos hvz
  have hs : ratSqrt (a * a + c * c) ≠ 0 := ne_of_gt (ratSqrt_pos hpos)
  refine ⟨-(0.5 * ρ * cd * ar * (ratSqrt (a * a + c * c) * ratSqrt (a * a + c * c))) / m
      * (a / ratSqrt (a * a + c * c)),
    -(0.5 * ρ * cd * ar * (ratSqrt (a * a + c * c) * ratSqrt (a * a + c * c))) / m
      * (c / ratSqrt (a * a + c * c)), ?_⟩
  simp only [calculateAccelerationDueToDrag, jsPow2_num, jsAdd_num,
    jsSqrt_num_nonneg (le_of_lt hpos), jsMul_num, jsNeg_num, jsDiv_num _ hm, jsDiv_num _ hs]

/-- With a nonzero finite current velocity, both thrust components are
finite numbers. -/
lemma thrust_num_shape (a c : ℚ) (b : Body) (hv : b.currentVelocity = (JSVal.num a, JSVal.num c))
    (hvz : ¬(a = 0 ∧ c = 0)) :
    ∃ u v : ℚ, getAccelerationDueToThrust b = (JSVal.num u, JSVal.num v) := by
  have hpos : 0 < a * a + c * c := sq_sum_pos hvz
  have hs : ratSqrt (a * a + c * c) ≠ 0 := ne_of_gt (ratSqrt_pos hpos)
  have hM : SHELL_MASS ≠ 0 := by norm_num [SHELL_MASS, STAR_MASS, STAR_COUNT]
  refine ⟨a / ratSqrt (a * a + c * c) * SHELL_THRUST / SHELL_MASS,
    c / ratSqrt (a * a + c * c) * SHELL_THRUST / SHELL_MASS, ?_⟩
  simp only [getAccelerationDueToThrust, hv, jsPow2_num, jsAdd_num,
    jsSqrt_num_nonneg (le_of_lt hpos), jsMul_num, jsDiv_num _ hs, jsDiv_num _ hM]

/-- C4 (amended): for a body with a recorded truthy `lastUpdate = t0`,
updated at a later `now`, with a nonzero finite previous velocity and
finite nonzero mass and finite drag constants, `update()` stores, per
axis: position `+ displacement` where the displacement is
`calculateDistance` of the previous velocity, `dt = now - t0` and the
previous acceleration; velocity re-derived as `displacement / dt`; and
acceleration equal to thrust (zero vector for bodies without a thrust
supplier) plus the drag computed from the previous velocity, with
gravity added to the vertical axis only.  (At zero previous velocity the
drag/thrust terms are `NaN` and are coerced to `0` instead — see C10 —
so the acceleration clause needs the nonzero-velocity hypothesis.) -/
theorem C4_update_integration_step (hasThrust : Bool) (tN t0 a c m cd ar : ℚ) (b : Body)
    (hl : b.lastUpdate = JSVal.num t0) (ht0 : t0 ≠ 0) (hdt : 0 < tN - t0)
    (hv : b.currentVelocity = (JSVal.num a, JSVal.num c)) (hvz : ¬(a = 0 ∧ c = 0))
    (hm : b.mass = JSVal.num m) (hm0 : m ≠ 0)
    (hcd : b.dragCoefficient = JSVal.num cd) (har : b.crossSectionalArea = JSVal.num ar) :
    (Body.update hasThrust tN b).currentPosition
      = (jsAdd b.currentPosition.1
          (calculateDistance b.currentVelocity.1 (JSVal.num (tN - t0)) b.currentAcceleration.1),
         jsAdd b.currentPosition.2
          (calculateDistance b.currentVelocity.2 (JSVal.num (tN - t0)) b.currentAcceleration.2)) ∧
    (Body.update hasThrust tN b).currentVelocity
      = (calculateSpeed
          (calculateDistance b.currentVelocity.1 (JSVal.num (tN - t0)) b.currentAcceleration.1)
          (JSVal.num (tN - t0)),
         calculateSpeed
          (calculateDistance b.currentVelocity.2 (JSVal.num (tN - t0)) b.currentAcceleration.2)
          (JSVal.num (tN - t0))) ∧
    (Body.update hasThrust tN b).currentAcceleration
      = (jsAdd
          (if hasThrust then getAccelerationDueToThrust b else (JSVal.num 0, JSVal.num 0)).1
          (calculateAccelerationDueToDrag (JSVal.num AIR_DENSITY) b.dragCoefficient
            b.crossSectionalArea b.currentVelocity b.mass).1,
         jsAdd
          (jsAdd
            (if hasThrust then getAccelerationDueToThrust b else (JSVal.num 0, JSVal.num 0)).2
            (calculateAccelerationDueToDrag (JSVal.num AIR_DENSITY) b.dragCoefficient
              b.crossSectionalArea b.currentVelocity b.mass).2)
          (JSVal.num ACCELERATION_DUE_TO_GRAVITY)) := by
  have hl' : b.lastUpdate.truthy = true := by rw [hl]; exact truthy_num_of_ne ht0
  rw [Body.update, if_neg (by simp [hl'])]
  have hdelta : jsSub (JSVal.num tN) b.lastUpdate = JSVal.num (tN - t0) := by
    rw [hl, jsSub_num]
  refine ⟨by rw [hdelta], by rw [hdelta], ?_⟩
  obtain ⟨du, dv, hdrag⟩ := drag_num_shape AIR_DENSITY cd ar m a c hm0 hvz
  cases hasThrust with
  | false =>
    simp only [hcd, har, hv, hm, hdelta, Bool.false_eq_true, if_false, hdrag, jsOr_num_zero]
  | true =>
    obtain ⟨tu, tv, hthrust⟩ := thrust_num_shape a c b hv hvz
    simp only [hcd, har, hv, hm, hdelta, if_true, hdrag, hthrust, jsOr_num_zero]

/-- Counterexample for C4 as stated: a shell-like body whose previous
velocity is the zero vector (every shell's first post-baseline update).
The stored acceleration is `[0, gravity]`, while the claim's
`drag + thrust + gravity` formula evaluates to `[NaN, NaN]` because both
normalisations divide `0 / 0`; the two differ. -/
theorem C4_counterexample :
    (Body.update true 2 { sampleShellBody with lastUpdate := JSVal.num 1 }).currentAcceleration
      ≠ (jsAdd
          (getAccelerationDueToThrust { sampleShellBody with lastUpdate := JSVal.num 1 }).1
          (calculateAccelerationDueToDrag (JSVal.num AIR_DENSITY)
            ({ sampleShellBody with lastUpdate := JSVal.num 1 } : Body).dragCoefficient
            ({ sampleShellBody with lastUpdate := JSVal.num 1 } : Body).crossSectionalArea
            ({ sampleShellBody with lastUpdate := JSVal.num 1 } : Body).currentVelocity
            ({ sampleShellBody with lastUpdate := JSVal.num 1 } : Body).mass).1,
         jsAdd
          (jsAdd
            (getAccelerationDueToThrust { sampleShellBody with lastUpdate := JSVal.num 1 }).2
            (calculateAccelerationDueToDrag (JSVal.num AIR_DENSITY)
              ({ sampleShellBody with lastUpdate := JSVal.num 1 } : Body).dragCoefficient
              ({ sampleShellBody with lastUpdate := JSVal.num 1 } : Body).crossSectionalArea
              ({ sampleShellBody with lastUpdate := JSVal.num 1 } : Body).currentVelocity
              ({ sampleShellBody with lastUpdate := JSVal.num 1 } : Body).mass).2)
          (JSVal.num ACCELERATION_DUE_TO_GRAVITY)) := by
  decide

/-- A shell-like body with velocity `(3, 4)` (speed exactly `5`) and a
recorded `lastUpdate = 1`, used by the C4 witness. -/
def sampleMovingShellBody : Body :=
  { sampleShellBody with
      currentVelocity := (JSVal.num 3, JSVal.num 4)
      lastUpdate := JSVal.num 1 }

/-- Witness for C4: the moving shell-like body updated at time `2`
(`dt = 1 > 0`). -/
theorem C4_witness :
    (Body.update true 2 sampleMovingShellBody).currentPosition
      = (jsAdd sampleMovingShellBody.currentPosition.1
          (calculateDistance sampleMovingShellBody.currentVelocity.1 (JSVal.num (2 - 1))
            sampleMovingShellBody.currentAcceleration.1),
         jsAdd sampleMovingShellBody.currentPosition.2
          (calculateDistance sampleMovingShellBody.currentVelocity.2 (JSVal.num (2 - 1))
            sampleMovingShellBody.currentAcceleration.2)) ∧
    (Body.update true 2 sampleMovingShellBody).currentVelocity
      = (calculateSpeed
          (calculateDistance sampleMovingShellBody.currentVelocity.1 (JSVal.num (2 - 1))
            sampleMovingShellBody.currentAcceleration.1)
          (JSVal.num (2 - 1)),
         calculateSpeed
          (calculateDistance sampleMovingShellBody.currentVelocity.2 (JSVal.num (2 - 1))
            sampleMovingShellBody.currentAcceleration.2)
          (JSVal.num (2 - 1))) ∧
    (Body.update true 2 sampleMovingShellBody).currentAcceleration
      = (jsAdd
          (if true then getAccelerationDueToThrust sampleMovingShellBody
           else (JSVal.num 0, JSVal.num 0)).1
          (calculateAccelerationDueToDrag (JSVal.num AIR_DENSITY)
            sampleMovingShellBody.dragCoefficient sampleMovingShellBody.crossSectionalArea
            sampleMovingShellBody.currentVelocity sampleMovingShellBody.mass).1,
         jsAdd
          (jsAdd
            (if true then getAccelerationDueToThrust sampleMovingShellBody
             else (JSVal.num 0, JSVal.num 0)).2
            (calculateAccelerationDueToDrag (JSVal.num AIR_DENSITY)
              sampleMovingShellBody.dragCoefficient sampleMovingShellBody.crossSectionalArea
              sampleMovingShellBody.currentVelocity sampleMovingShellBody.mass).2)
          (JSVal.num ACCELERATION_DUE_TO_GRAVITY)) :=
  C4_update_integration_step true 2 1 3 4 SHELL_MASS SHELL_DRAG_COEFFICIENT
    SHELL_CROSS_SECTIONAL_AREA sampleMovingShellBody rfl (by decide) (by norm_num)
    rfl (by decide) rfl (by norm_num [SHELL_MASS, STAR_MASS, STAR_COUNT]) rfl rfl

/-- The kept branch of the per-shell loop body: `update()` (and a draw,
not modelled) when the framerate is above tolerance or the shell is
spawned, otherwise nothing. -/
def shellKeepStep (fr : JSVal) (tN : ℚ) (s : Shell) : Shell :=
  if jsGt fr (JSVal.num FRAMERATE_TOLERANCE) || s.body.spawned.truthy then
    { s with body := Body.update true tN s.body }
  else s

/-- A live shell whose displacement does not exceed its target
displacement is kept by the loop body, with the shells and stars arrays
untouched apart from its own (possible) update. -/
lemma processShell_kept (w h : ℚ) (fr : JSVal) (tN : ℚ) (sd : ℕ → StarDraw)
    (s : Shell) (stars : List Star) (hdet : s.detonated = false)
    (hgt : jsGt (calculateDisplacement (getLauncherPosition w h) s.body.currentPosition)
      (calculateDisplacement (getLauncherPosition w h) s.target) = false) :
    processShell w h fr tN sd s stars = (some (shellKeepStep fr tN s), stars) := by
  simp only [processShell, hgt, Bool.false_eq_true, if_false, hdet, shellKeepStep]
  split
  · rfl
  · rfl

/-- C5 (amended): for every live shell (`detonated = false`) the
per-shell loop body calls `detonate()` exactly when the displacement
from the launcher to the shell's position strictly exceeds (not merely
reaches) the displacement from the launcher to the target; when that
happens the 100 stars are appended and the shell is removed from the
active array on the same frame; otherwise no star is spawned, the shell
stays, and its `detonated` flag remains false.  (Shells the scan skips
after an earlier removal — see C7 — are not examined at all that tick.) -/
theorem C5_range_triggered_detonation (w h : ℚ) (fr : JSVal) (tN : ℚ)
    (sd : ℕ → StarDraw) (s : Shell) (stars : List Star) (hs : s.detonated = false) :
    (jsGt (calculateDisplacement (getLauncherPosition w h) s.body.currentPosition)
        (calculateDisplacement (getLauncherPosition w h) s.target) = true →
      processShell w h fr tN sd s stars = (none, (Shell.detonate sd tN s stars).2) ∧
      (Shell.detonate sd tN s stars).2.length = stars.length + STAR_COUNT) ∧
    (jsGt (calculateDisplacement (getLauncherPosition w h) s.body.currentPosition)
        (calculateDisplacement (getLauncherPosition w h) s.target) = false →
      (processShell w h fr tN sd s stars).2 = stars ∧
      ∃ s', (processShell w h fr tN sd s stars).1 = some s' ∧ s'.detonated = false) := by
  constructor
  · intro hgt
    constructor
    · simp only [processShell, hgt, if_true, Shell.detonate]
    · simp [Shell.detonate]
  · intro hgt
    rw [processShell_kept w h fr tN sd s stars hs hgt]
    exact ⟨rfl, shellKeepStep fr tN s, rfl, by
      simp only [shellKeepStep]
      split
      · exact hs
      · exact hs⟩

/-- A shell (color `1`) positioned past its target: with a 300×300
canvas the launcher sits at `(15, -2)`; the shell is 15 m from the
launcher while its target is 2 m from it. -/
def sampleShellA : Shell :=
  { body := { sampleShellBody with currentPosition := (JSVal.num 15, JSVal.num 13) }
    target := (JSVal.num 15, JSVal.num 0)
    detonated := false
    color := 1 }

/-- A second shell past its target (color `2`). -/
def sampleShellB : Shell :=
  { body := { sampleShellBody with currentPosition := (JSVal.num 15, JSVal.num 13) }
    target := (JSVal.num 15, JSVal.num 0)
    detonated := false
    color := 2 }

/-- A live shell sitting exactly at its target: both displacements from
the launcher are equal (2 m). -/
def sampleShellAt : Shell :=
  { body := { sampleShellBody with currentPosition := (JSVal.num 15, JSVal.num 0) }
    target := (JSVal.num 15, JSVal.num 0)
    detonated := false
    color := 4 }

/-- Counterexample for C5 as stated: a live shell exactly at its target
("reaches" the target displacement, 2 m = 2 m).  The claim says
`detonate()` fires; the code's strict `>` comparison does not fire: the
loop body keeps the shell, spawns no star, and leaves `detonated`
false. -/
theorem C5_counterexample :
    (processShell 300 300 (JSVal.num 60) 2 sampleDraws sampleShellAt []).2 = [] ∧
    Option.map Shell.detonated
        (processShell 300 300 (JSVal.num 60) 2 sampleDraws sampleShellAt []).1
      = some false := by
  exact ⟨rfl, rfl⟩

/-- Witness for C5: the shell past its target detonates — the loop body
removes it and appends the 100-star batch. -/
theorem C5_witness :
    processShell 300 300 (JSVal.num 60) 2 sampleDraws sampleShellA []
      = (none, (Shell.detonate sampleDraws 2 sampleShellA []).2) ∧
    (Shell.detonate sampleDraws 2 sampleShellA []).2.length
      = ([] : List Star).length + STAR_COUNT :=
  (C5_range_triggered_detonation 300 300 (JSVal.num 60) 2 sampleDraws sampleShellA []
    rfl).1 (by decide)

/-- Neither branch of `Body.update` touches the `spawned` slot. -/
lemma update_spawned (hasThrust : Bool) (timeNow : ℚ) (b : Body) :
    (Body.update hasThrust timeNow b).spawned = b.spawned := by
  rw [Body.update]
  split
  · rfl
  · rfl

/-- The body of the per-star loop when the star survives: just the
in-place `update()` (plus a draw, not modelled). -/
def starKeepStep (tN : ℚ) (s : Star) : Star :=
  { s with body := Body.update false tN s.body }

/-- One step of the per-star scan when the head star is kept. -/
lemma starsScan_cons_kept (tN tC : ℚ) (s s' : Star) (rest : List Star)
    (hps : processStar tN tC s = some s') :
    starsScan tN tC (s :: rest) = s' :: starsScan tN tC rest :=
  starsScan.eq_2 tN tC s rest s' hps

/-- One step of the per-star scan when the head star is removed: the
next star is carried over unprocessed. -/
lemma starsScan_cons_removed (tN tC : ℚ) (A B : Star) (rest : List Star)
    (hps : processStar tN tC A = none) :
    starsScan tN tC (A :: B :: rest) = B :: starsScan tN tC rest :=
  starsScan.eq_4 tN tC A B rest hps

/-- A star whose burn time does not yet exceed its duration is kept by
the loop body, updated in place. -/
lemma processStar_kept (tN tC : ℚ) (s : Star)
    (h : jsGt (jsSub (JSVal.num tC) s.body.spawned) s.duration = false) :
    processStar tN tC s = some (starKeepStep tN s) := by
  simp only [processStar, starKeepStep, update_spawned, h, Bool.false_eq_true, if_false]

/-- C7 (amended): both forward scans with in-place `splice` removal —
the per-shell loop and the per-star loop — visit every entity exactly
once on ticks where nothing is removed (every live shell/star is
processed in place), but whenever an entity is removed the element
immediately after it is skipped on that tick: it is carried over
unprocessed and the scan resumes at the element after it. -/
theorem C7_scan_visits (w h : ℚ) (fr : JSVal) (tN tC : ℚ) (sds : ℕ → ℕ → StarDraw) :
    (∀ (shells : List Shell) (stars : List Star) (j : ℕ),
      (∀ s ∈ shells, s.detonated = false ∧
        jsGt (calculateDisplacement (getLauncherPosition w h) s.body.currentPosition)
          (calculateDisplacement (getLauncherPosition w h) s.target) = false) →
      shellsScanAux w h fr tN sds j shells stars
        = (shells.map (shellKeepStep fr tN), stars)) ∧
    (∀ (A B : Shell) (rest : List Shell) (stars stars₁ : List Star) (j : ℕ),
      processShell w h fr tN (sds j) A stars = (none, stars₁) →
      shellsScanAux w h fr tN sds j (A :: B :: rest) stars
        = (B :: (shellsScanAux w h fr tN sds (j + 1) rest stars₁).1,
           (shellsScanAux w h fr tN sds (j + 1) rest stars₁).2)) ∧
    (∀ stars : List Star,
      (∀ s ∈ stars, jsGt (jsSub (JSVal.num tC) s.body.spawned) s.duration = false) →
      starsScan tN tC stars = stars.map (starKeepStep tN)) ∧
    (∀ (A B : Star) (rest : List Star),
      processStar tN tC A = none →
      starsScan tN tC (A :: B :: rest) = B :: starsScan tN tC rest) := by
  refine ⟨?_, ?_, ?_, ?_⟩
  · intro shells
    induction shells with
    | nil => intro stars j _; rfl
    | cons s rest ih =>
      intro stars j hall
      obtain ⟨hdet, hgt⟩ := hall s (List.mem_cons_self s rest)
      rw [shellsScanAux, processShell_kept w h fr tN (sds j) s stars hdet hgt]
      dsimp only
      rw [ih stars (j + 1) (fun x hx => hall x (List.mem_cons_of_mem s hx))]
      rfl
  · intro A B rest stars stars₁ j hA
    rw [shellsScanAux, hA]
  · intro stars
    induction stars with
    | nil => intro _; rfl
    | cons s rest ih =>
      intro hall
      rw [starsScan_cons_kept tN tC s _ rest
        (processStar_kept tN tC s (hall s (List.mem_cons_self s rest)))]
      rw [ih (fun x hx => hall x (List.mem_cons_of_mem s hx))]
      rfl
  · intro A B rest hA
    exact starsScan_cons_removed tN tC A B rest hA

/-- Counterexample for C7 as stated: two live shells, both past their
targets.  A correct once-per-entity visit would detonate both (200 stars,
empty array); the forward scan with `splice` removes the first and skips
the second, which survives the tick undetonated, with only the first
shell's 100 stars spawned. -/
theorem C7_counterexample :
    (shellsScan 300 300 (JSVal.num 60) 2 (fun _ => sampleDraws) [sampleShellA, sampleShellB]
        []).1.map Shell.detonated = [false] ∧
    (shellsScan 300 300 (JSVal.num 60) 2 (fun _ => sampleDraws) [sampleShellA, sampleShellB]
        []).2.length = 100 := by
  exact ⟨rfl, rfl⟩

/-- A live star: spawned at time `8` with a 3-second duration, so at
clock reading `9` its burn time (1 s) has not exceeded its duration. -/
def sampleLiveStar : Star :=
  { body := { sampleStarBody with spawned := JSVal.num 8 }
    duration := JSVal.num 3
    decayed := false
    color := 5 }

/-- A burnt-out star: spawned at time `1` with a 2-second duration, so
at clock reading `9` its burn time (8 s) exceeds its duration and the
loop removes it. -/
def sampleDecayedStar : Star :=
  { body := { sampleStarBody with spawned := JSVal.num 1 }
    duration := JSVal.num 2
    decayed := false
    color := 6 }

/-- Witness for C7: (a) a singleton scan over a live, non-exceeding
shell visits it exactly once; (b) removing a shell (here: one already
flagged detonated, which the loop body drops without spawning) skips the
shell right after it on that tick; (c) a singleton star scan visits the
live star exactly once; (d) removing a burnt-out star skips the star
right after it on that tick. -/
theorem C7_witness :
    shellsScanAux 300 300 (JSVal.num 60) 2 (fun _ => sampleDraws) 0 [sampleShellAt] []
      = ([sampleShellAt].map (shellKeepStep (JSVal.num 60) 2), []) ∧
    shellsScanAux 300 300 (JSVal.num 60) 2 (fun _ => sampleDraws) 0
        [{ sampleShellAt with detonated := true }, sampleShellB] []
      = (sampleShellB
           :: (shellsScanAux 300 300 (JSVal.num 60) 2 (fun _ => sampleDraws) 1 [] []).1,
         (shellsScanAux 300 300 (JSVal.num 60) 2 (fun _ => sampleDraws) 1 [] []).2) ∧
    starsScan 9 9 [sampleLiveStar] = [sampleLiveStar].map (starKeepStep 9) ∧
    starsScan 9 9 [sampleDecayedStar, sampleLiveStar]
      = sampleLiveStar :: starsScan 9 9 [] :=
  ⟨(C7_scan_visits 300 300 (JSVal.num 60) 2 9 (fun _ => sampleDraws)).1 [sampleShellAt] [] 0
      (by intro s hs; rw [List.mem_singleton.mp hs]; exact ⟨rfl, by decide⟩),
   (C7_scan_visits 300 300 (JSVal.num 60) 2 9 (fun _ => sampleDraws)).2.1
      { sampleShellAt with detonated := true } sampleShellB [] [] [] 0 rfl,
   (C7_scan_visits 300 300 (JSVal.num 60) 9 9 (fun _ => sampleDraws)).2.2.1 [sampleLiveStar]
      (by intro s hs; rw [List.mem_singleton.mp hs]; decide),
   (C7_scan_visits 300 300 (JSVal.num 60) 9 9 (fun _ => sampleDraws)).2.2.2
      sampleDecayedStar sampleLiveStar [] rfl⟩

/-- C8: the idle auto-spawn.  (i) On the first tick the framerate
prologue leaves the `framerate` global `undefined`.  (ii) The idle
segment never spawns while the framerate is `undefined` (no measurement
yet) or measured at or below `FRAMERATE_TOLERANCE` (15 fps): the
scheduling state and the shells array are returned untouched.  (iii)
Whenever it does fire, the spawned shell's `resetRandomSpawn` redraws
the period as `getRandomArbitrary(2, 5)`, which lies in `[2, 5)` for any
`Math.random()` result in `[0, 1)`, the elapsed-time baseline is then
overwritten with the tick's `timeNow`, and the new shell is appended. -/
theorem C8_idle_spawn_gate (fr : JSVal) (tN tC rP : ℚ) (target : Vec2) (color : ℕ)
    (w h : ℚ) (st : SpawnState) (shells : List Shell) :
    (framerateStep tN JSVal.undef JSVal.undef).2 = JSVal.undef ∧
    ((fr = JSVal.undef ∨ ∃ q : ℚ, fr = JSVal.num q ∧ q ≤ FRAMERATE_TOLERANCE) →
      idleSpawnStep fr tN tC rP target color w h st shells = (st, shells)) ∧
    (0 ≤ rP → rP < 1 →
      jsGt fr (JSVal.num FRAMERATE_TOLERANCE) = true →
      (!st.mostRecentRandomSpawn.truthy
        || jsGt (jsSub (JSVal.num tN) st.mostRecentRandomSpawn)
             st.currentRandomSpawnPeriod) = true →
      (idleSpawnStep fr tN tC rP target color w h st shells).1.mostRecentRandomSpawn
          = JSVal.num tN ∧
      (∃ p : ℚ,
        (idleSpawnStep fr tN tC rP target color w h st shells).1.currentRandomSpawnPeriod
            = JSVal.num p ∧
        MINIMUM_RANDOM_SPAWN_PERIOD ≤ p ∧ p < MAXIMUM_RANDOM_SPAWN_PERIOD) ∧
      (idleSpawnStep fr tN tC rP target color w h st shells).2
          = shells ++ [(Shell.spawn tC rP (mkShell target color w h) shells).1]) := by
  refine ⟨rfl, ?_, ?_⟩
  · rintro (rfl | ⟨q, rfl, hq⟩)
    · rfl
    · have hgt : jsGt (JSVal.num q) (JSVal.num FRAMERATE_TOLERANCE) = false := by
        simp [jsGt, JSVal.toNumber, not_lt.mpr hq]
      simp [idleSpawnStep, hgt]
  · intro h0 h1 hgt hfire
    have hstep : idleSpawnStep fr tN tC rP target color w h st shells
        = ({ resetRandomSpawn tC rP with mostRecentRandomSpawn := JSVal.num tN },
           shells ++ [(Shell.spawn tC rP (mkShell target color w h) shells).1]) := by
      rw [idleSpawnStep]
      simp only [hgt, if_true, hfire]
      rfl
    rw [hstep]
    refine ⟨rfl, ⟨getRandomArbitrary MINIMUM_RANDOM_SPAWN_PERIOD
      MAXIMUM_RANDOM_SPAWN_PERIOD rP, rfl, ?_, ?_⟩, rfl⟩
    · simp only [getRandomArbitrary, MINIMUM_RANDOM_SPAWN_PERIOD, MAXIMUM_RANDOM_SPAWN_PERIOD]
      linarith
    · simp only [getRandomArbitrary, MINIMUM_RANDOM_SPAWN_PERIOD, MAXIMUM_RANDOM_SPAWN_PERIOD]
      linarith

/-- The scheduling state before any `resetRandomSpawn` has run: both
globals are still `undefined`. -/
def sampleFreshSpawnState : SpawnState :=
  { mostRecentRandomSpawn := JSVal.undef
    currentRandomSpawnPeriod := JSVal.undef }

/-- Witness for C8: with an unmeasured (`undefined`) framerate nothing
spawns; with framerate `60 > 15` and an `undefined` baseline the spawn
fires, the baseline becomes the tick time `9`, the redrawn period is `2`
(draw `0`), and the shell is appended. -/
theorem C8_witness :
    idleSpawnStep JSVal.undef 9 9 0 (JSVal.num 1, JSVal.num 5) 7 300 300
        sampleFreshSpawnState [] = (sampleFreshSpawnState, []) ∧
    (idleSpawnStep (JSVal.num 60) 9 9 0 (JSVal.num 1, JSVal.num 5) 7 300 300
        sampleFreshSpawnState []).1.mostRecentRandomSpawn = JSVal.num 9 ∧
    (∃ p : ℚ,
      (idleSpawnStep (JSVal.num 60) 9 9 0 (JSVal.num 1, JSVal.num 5) 7 300 300
          sampleFreshSpawnState []).1.currentRandomSpawnPeriod = JSVal.num p ∧
      MINIMUM_RANDOM_SPAWN_PERIOD ≤ p ∧ p < MAXIMUM_RANDOM_SPAWN_PERIOD) ∧
    (idleSpawnStep (JSVal.num 60) 9 9 0 (JSVal.num 1, JSVal.num 5) 7 300 300
        sampleFreshSpawnState []).2
      = [] ++ [(Shell.spawn 9 0 (mkShell (JSVal.num 1, JSVal.num 5) 7 300 300) []).1] :=
  ⟨(C8_idle_spawn_gate JSVal.undef 9 9 0 (JSVal.num 1, JSVal.num 5) 7 300 300
      sampleFreshSpawnState []).2.1 (Or.inl rfl),
   (C8_idle_spawn_gate (JSVal.num 60) 9 9 0 (JSVal.num 1, JSVal.num 5) 7 300 300
      sampleFreshSpawnState []).2.2 (by norm_num) (by norm_num) (by decide) (by decide)⟩

/-- C10: a non-baseline `update()` of any body (with or without a thrust
supplier) whose previous velocity is the zero vector stores exactly
`[0, -9.80665]` as the new acceleration: the `NaN`s produced by the drag
and thrust direction normalisations at zero speed are coerced to `0` by
the `|| 0` guards before gravity is added. -/
theorem C10_zero_velocity_acceleration (hasThrust : Bool) (timeNow : ℚ) (b : Body)
    (hv : b.currentVelocity = (JSVal.num 0, JSVal.num 0))
    (hl : b.lastUpdate.truthy = true) :
    (Body.update hasThrust timeNow b).currentAcceleration =
      (JSVal.num 0, JSVal.num ACCELERATION_DUE_TO_GRAVITY) :=
  update_zero_velocity_acc hasThrust timeNow b hv hl

/-- C1 (amended): every call to `detonate()` sets `detonated := true` and
spawns exactly `STAR_COUNT` (100) stars, each created at the shell's
current position and carrying its color; there is no idempotent guard,
so a second call spawns another 100 (two calls yield 200 pushed stars in
total).  (In the animation loop a detonated shell is removed the same
frame, so the loop itself never calls `detonate()` twice on one shell.) -/
theorem C1_detonate_each_call_spawns
    (sd sd' : ℕ → StarDraw) (t t' : ℚ) (s : Shell) (stars : List Star) :
    (Shell.detonate sd t s stars).1.detonated = true ∧
    (Shell.detonate sd t s stars).2.length = stars.length + STAR_COUNT ∧
    (∀ st ∈ (Shell.detonate sd t s stars).2.drop stars.length,
      st.body.currentPosition = s.body.currentPosition ∧ st.color = s.color) ∧
    (Shell.detonate sd' t' (Shell.detonate sd t s stars).1
        (Shell.detonate sd t s stars).2).2.length
      = stars.length + STAR_COUNT + STAR_COUNT := by
  refine ⟨rfl, by simp [Shell.detonate], ?_, by simp [Shell.detonate, add_assoc]⟩
  intro st hst
  rw [Shell.detonate] at hst
  simp only [List.drop_left] at hst
  rcases List.mem_map.mp hst with ⟨i, _, rfl⟩
  exact ⟨rfl, rfl⟩

/-- Counterexample for C1 as stated: two `detonate()` calls on the same
shell push 200 stars, not the single batch of 100 the claim asserts. -/
theorem C1_counterexample :
    (Shell.detonate sampleDraws 1 (Shell.detonate sampleDraws 1 sampleShell []).1
        (Shell.detonate sampleDraws 1 sampleShell []).2).2.length = 200 ∧
    (Shell.detonate sampleDraws 1 (Shell.detonate sampleDraws 1 sampleShell []).1
        (Shell.detonate sampleDraws 1 sampleShell []).2).2.length ≠ 100 := by
  exact ⟨by decide, by decide⟩

/-- Witness for C1: the sample shell detonated twice from an empty star
array: each batch counts 100, the flag is set, and the first spawned star
sits at the shell's position with its color. -/
theorem C1_witness :
    (Shell.detonate sampleDraws 1 sampleShell []).1.detonated = true ∧
    (Shell.detonate sampleDraws 1 sampleShell []).2.length
      = ([] : List Star).length + STAR_COUNT ∧
    (∀ st ∈ (Shell.detonate sampleDraws 1 sampleShell []).2.drop ([] : List Star).length,
      st.body.currentPosition = sampleShell.body.currentPosition ∧
      st.color = sampleShell.color) ∧
    (Shell.detonate sampleDraws 2 (Shell.detonate sampleDraws 1 sampleShell []).1
        (Shell.detonate sampleDraws 1 sampleShell []).2).2.length
      = ([] : List Star).length + STAR_COUNT + STAR_COUNT :=
  C1_detonate_each_call_spawns sampleDraws sampleDraws 1 2 sampleShell []

/-- C6 (amended): there is no `dt ≤ 0` guard in `Body.update`.  A
non-baseline update at `now` equal to the recorded `lastUpdate`
(`dt = 0`) leaves the position unchanged (the computed displacement is
zero), but re-deriving the velocity as `displacement / dt` evaluates
`0 / 0`, so both stored velocity components become `NaN` — the update is
not a NaN-free no-op. -/
theorem C6_dt_zero_nan_velocity (hasThrust : Bool) (t px py vx vy ax ay : ℚ)
    (b : Body) (ht : t ≠ 0) (hl : b.lastUpdate = JSVal.num t)
    (hp : b.currentPosition = (JSVal.num px, JSVal.num py))
    (hv : b.currentVelocity = (JSVal.num vx, JSVal.num vy))
    (ha : b.currentAcceleration = (JSVal.num ax, JSVal.num ay)) :
    (Body.update hasThrust t b).currentPosition = b.currentPosition ∧
    (Body.update hasThrust t b).currentVelocity = (JSVal.nan, JSVal.nan) := by
  have hl' : b.lastUpdate.truthy = true := by rw [hl]; exact truthy_num_of_ne ht
  rw [Body.update, if_neg (by simp [hl'])]
  have hdt : jsSub (JSVal.num t) b.lastUpdate = JSVal.num 0 := by
    rw [hl, jsSub_num, sub_self]
  have hdx : calculateDistance (JSVal.num vx) (JSVal.num 0) (JSVal.num ax) = JSVal.num 0 := by
    rw [calculateDistance, jsMul_num, jsMul_num, jsMul_num, jsMul_num, jsAdd_num]
    norm_num
  have hdy : calculateDistance (JSVal.num vy) (JSVal.num 0) (JSVal.num ay) = JSVal.num 0 := by
    rw [calculateDistance, jsMul_num, jsMul_num, jsMul_num, jsMul_num, jsAdd_num]
    norm_num
  simp only [hdt, hp, hv, ha, hdx, hdy, calculateSpeed, jsDiv_zero_zero, jsAdd_num, add_zero]
  exact ⟨trivial, trivial⟩

/-- Counterexample for C6 as stated: a body with velocity `(1, 2)` and
`lastUpdate = 5`, updated again at time `5` (`dt = 0`): both velocity
components become `NaN`, so the `dt ≤ 0` case is not a NaN-free no-op. -/
theorem C6_counterexample :
    (Body.update false 5
        { sampleStarBody with
            currentVelocity := (JSVal.num 1, JSVal.num 2)
            lastUpdate := JSVal.num 5 }).currentVelocity = (JSVal.nan, JSVal.nan) := by
  decide

/-- Witness for C6: the star-like sample body with velocity `(1, 2)`,
acceleration `(0, 0)`, `lastUpdate = 5`, updated at time `5`. -/
theorem C6_witness :
    (Body.update false 5
        { sampleStarBody with
            currentVelocity := (JSVal.num 1, JSVal.num 2)
            lastUpdate := JSVal.num 5 }).currentPosition
      = ({ sampleStarBody with
            currentVelocity := (JSVal.num 1, JSVal.num 2)
            lastUpdate := JSVal.num 5 } : Body).currentPosition ∧
    (Body.update false 5
        { sampleStarBody with
            currentVelocity := (JSVal.num 1, JSVal.num 2)
            lastUpdate := JSVal.num 5 }).currentVelocity = (JSVal.nan, JSVal.nan) :=
  C6_dt_zero_nan_velocity false 5 0 0 1 2 0 0 _ (by decide) rfl rfl rfl rfl

/-- Witness for C10: a shell-like body (`hasThrust = true`) with zero
velocity and a recorded `lastUpdate = 1`, updated at time `2`. -/
theorem C10_witness :
    (Body.update true 2 { sampleShellBody with lastUpdate := JSVal.num 1 }).currentAcceleration
      = (JSVal.num 0, JSVal.num ACCELERATION_DUE_TO_GRAVITY) :=
  C10_zero_velocity_acceleration true 2 { sampleShellBody with lastUpdate := JSVal.num 1 }
    rfl (by decide)

end Vulcan
